import Mathlib

/-
Verification development for the relay pipeline of the new-api gateway.

The Go sources embedded here are:
  * relay/claude_handler.go   (the Claude relay orchestrator `ClaudeHelper`)
  * service/error.go          (`RelayErrorHandler`, `ResetStatusCode`)
  * relay/channel/vertex/adaptor.go (the Vertex adapter, in particular
    `Init` and `GetRequestURL`)

Modelling conventions, used throughout:
  * Go strings are Lean `String`; Go `uint`/`int` are `Nat`/`Int` (no
    overflow is reachable at the values these functions handle, except in
    `strconv.Atoi`, whose 64-bit clamping is modelled explicitly).
  * Go `float64` arithmetic on the thinking-budget percentage is modelled
    as exact rational arithmetic; `int(x)` truncation toward zero on a
    non-negative operand is `Int.floor`.  At the percentages and token
    counts involved the float and rational computations agree on the
    direction of truncation, which is all the theorems below use.
  * A Go `map[string]string` is an association list with distinct keys;
    lookup is `tableLookup`.
  * Fallible external collaborators of the orchestrator (JSON binding,
    model mapping, the pricing helper, the quota ledger, the adapter
    calls) are modelled by an `Env` record carrying each call's outcome,
    and the orchestrator body is translated line by line against that
    environment.
-/

/-! ## Shared data model (dto / relaycommon) -/

/-- dto.Usage: the token usage reported by an adapter after `DoResponse`. -/
structure Usage where
  promptTokens : Int
  completionTokens : Int
  totalTokens : Int
deriving Repr, DecidableEq

/-- dto.Thinking: the extended-thinking block of a Claude request.
`budgetTokens` models the Go `*int` pointer field `BudgetTokens`. -/
structure Thinking where
  thinkingType : String
  budgetTokens : Option Int
deriving Repr, DecidableEq

/-- dto.ClaudeRequest, restricted to the fields `ClaudeHelper` reads or
writes.  `messages` keeps only as much structure as the handler consults
(emptiness); `temperature` models the Go `*float64` pointer. -/
structure ClaudeRequest where
  model : String
  messages : List String
  maxTokens : Nat
  stream : Bool
  thinking : Option Thinking
  topP : ℚ
  temperature : Option ℚ
deriving Repr, DecidableEq

/-- relaycommon.RelayInfo, restricted to the fields the embedded code
touches: the stream flag, the upstream model name and the counted prompt
tokens. -/
structure RelayInfo where
  isStream : Bool
  upstreamModelName : String
  promptTokens : Int
deriving Repr, DecidableEq

/-- model_setting Claude settings.  `defaultMaxTokens` models
`GetDefaultMaxTokens`.  Modelled from the spec: the per-model
`default_max_tokens` table of the channel settings (spec §6); the Go
implementation of the settings object is not under src/. -/
structure ClaudeSettings where
  thinkingAdapterEnabled : Bool
  thinkingAdapterBudgetTokensPercentage : ℚ
  defaultMaxTokens : String → Nat

/-! ## Small Go string/strconv helpers -/

/-- Whether `pat` is a prefix of `l` (character lists; structural, so the
kernel can evaluate it). -/
def listHasPrefix : List Char → List Char → Bool
  | _, [] => true
  | [], _ :: _ => false
  | a :: as, b :: bs => a = b && listHasPrefix as bs

/-- Whether `pat` occurs contiguously in `l`. -/
def listContainsSeq (l pat : List Char) : Bool :=
  listHasPrefix l pat ||
    match l with
    | [] => false
    | _ :: rest => listContainsSeq rest pat

/-- The characters of `l` before the first occurrence of `pat`. -/
def takeUntilSeq (l pat : List Char) : List Char :=
  match l with
  | [] => []
  | c :: rest => if listHasPrefix l pat then [] else c :: takeUntilSeq rest pat

/-- strings.HasPrefix. -/
def goHasPrefix (s pre : String) : Bool :=
  listHasPrefix s.toList pre.toList

/-- strings.HasSuffix. -/
def goHasSuffix (s suf : String) : Bool :=
  listHasPrefix s.toList.reverse suf.toList.reverse

/-- strings.TrimSuffix: drop `suf` when it is a suffix, else identity. -/
def trimSuffix (s suf : String) : String :=
  if goHasSuffix s suf then
    String.mk (s.toList.take (s.toList.length - suf.toList.length))
  else s

/-- strings.Contains. -/
def strContains (s t : String) : Bool :=
  listContainsSeq s.toList t.toList

/-- `strings.Split(s, sep)[0]` for non-empty `sep`: the text before the
first occurrence of `sep` (the whole of `s` when `sep` does not
occur). -/
def goSplitFirst (s sep : String) : String :=
  String.mk (takeUntilSeq s.toList sep.toList)

/-- Lookup in a Go `map[string]string`, modelled as an association list
with distinct keys. -/
def tableLookup (m : List (String × String)) (k : String) : Option String :=
  match m with
  | [] => none
  | (a, b) :: rest => if a = k then some b else tableLookup rest k

/-- Digit run for `strconv.Atoi`: all characters must be decimal digits
and at least one must be present. -/
def goDigitsToNat (cs : List Char) : Option Nat :=
  if cs = [] then none
  else cs.foldl
    (fun acc c => match acc with
      | none => none
      | some n => if c.isDigit then some (n * 10 + (c.toNat - 48)) else none)
    (some 0)

/-- Syntactic part of `strconv.Atoi`: optional sign then digits; `none`
models a syntax error (Atoi then reports `ErrSyntax` and value 0). -/
def goParseIntSyn (s : String) : Option Int :=
  match s.toList with
  | '+' :: rest => (goDigitsToNat rest).map fun n => (n : Int)
  | '-' :: rest => (goDigitsToNat rest).map fun n => -(n : Int)
  | cs => (goDigitsToNat cs).map fun n => (n : Int)

/-- 64-bit clamping of `strconv.ParseInt`: on range error Go returns the
clamped extreme value together with `ErrRange`. -/
def int64Clamp (n : Int) : Int :=
  if n > 2 ^ 63 - 1 then 2 ^ 63 - 1
  else if n < -(2 ^ 63) then -(2 ^ 63) else n

/-- strconv.Atoi as used at service/error.go:183, where the error return
is discarded: syntax errors yield 0, range errors yield the clamped
value. -/
def goAtoi (s : String) : Int :=
  match goParseIntSyn s with
  | none => 0
  | some n => int64Clamp n

/-- strconv.Itoa. -/
def goItoa (n : Int) : String := toString n

/-! ## service/error.go -/

/-- The upstream error envelope `dto.GeneralErrorResponse.Error`. -/
structure GeneralError where
  message : String
  errType : String
  code : String
deriving Repr, DecidableEq

/-- dto.GeneralErrorResponse: the parsed error body.  `toMessage` models
the `ToMessage()` fallback extraction used when `Error.Message` is
empty. -/
structure GeneralErrorResponse where
  error : GeneralError
  toMessage : String
deriving Repr, DecidableEq

/-- Outcome of reading and unmarshalling the upstream error body
(service/error.go:95-110): the read can fail, the bytes can fail to
unmarshal (carrying the raw body), or an envelope is parsed. -/
inductive UpstreamBody
  | readFail
  | unparsable (raw : String)
  | parsed (resp : GeneralErrorResponse)
deriving Repr, DecidableEq

/-- The shape of the `types.NewAPIError` the normalizer returns.
`bare` is the early return after a body-read failure (only the status
code and error type were filled in); `badStatus` is the unmarshal-failure
error; `structured` wraps the parsed envelope
(`types.WithOpenAIError`); `unstructured` wraps `ToMessage()`
(`types.NewErrorWithStatusCode`). -/
inductive NormalizedErrKind
  | bare
  | badStatus (msg : String)
  | structured (e : GeneralError)
  | unstructured (msg : String)
deriving Repr, DecidableEq

/-- The `types.NewAPIError` fields relevant here.  Modelled from the
spec for the constructors that are not under src/ (`types.WithOpenAIError`
and `types.NewErrorWithStatusCode` attach the status code they are given,
spec §4.6 step 3). -/
structure NewAPIErrorModel where
  statusCode : Int
  kind : NormalizedErrKind
deriving Repr, DecidableEq

/-- service/error.go:85-134 `RelayErrorHandler`: normalize a non-200
upstream response.  The logging calls are omitted; control flow and the
constructed error are translated branch by branch. -/
def RelayErrorHandler (status : Int) (body : UpstreamBody) (showBodyWhenFail : Bool) :
    NewAPIErrorModel :=
  match body with
  | UpstreamBody.readFail =>
      { statusCode := status, kind := NormalizedErrKind.bare }
  | UpstreamBody.unparsable raw =>
      if showBodyWhenFail then
        { statusCode := status
          kind := NormalizedErrKind.badStatus
            ("bad response status code " ++ goItoa status ++ ", body: " ++ raw) }
      else
        { statusCode := status
          kind := NormalizedErrKind.badStatus ("bad response status code " ++ goItoa status) }
  | UpstreamBody.parsed r =>
      if r.error.message ≠ "" then
        { statusCode := status, kind := NormalizedErrKind.structured r.error }
      else
        { statusCode := status, kind := NormalizedErrKind.unstructured r.toMessage }

/-- service/error.go:169-186 `ResetStatusCode`, at the level of the
already-parsed mapping table.  The string-level prelude (empty string,
literal empty object, JSON parse failure, lines 170-177) returns without
touching the error, i.e. is the identity remap and is subsumed by taking
the parsed table as input. -/
def ResetStatusCode (statusCode : Int) (mapping : List (String × String)) : Int :=
  if statusCode = 200 then statusCode
  else
    match tableLookup mapping (goItoa statusCode) with
    | some target => goAtoi target
    | none => statusCode

/-! ## relay/channel/vertex/adaptor.go -/

/-- vertex request-mode discriminators (adaptor.go:23-27). -/
def RequestModeClaude : Nat := 1

/-- vertex request-mode discriminator for the Gemini family. -/
def RequestModeGemini : Nat := 2

/-- vertex request-mode discriminator for the Llama family. -/
def RequestModeLlama : Nat := 3

/-- adaptor.go:29-38 `claudeModelMap`. -/
def claudeModelMap : List (String × String) :=
  [("claude-3-sonnet-20240229", "claude-3-sonnet@20240229"),
   ("claude-3-opus-20240229", "claude-3-opus@20240229"),
   ("claude-3-haiku-20240307", "claude-3-haiku@20240307"),
   ("claude-3-5-sonnet-20240620", "claude-3-5-sonnet@20240620"),
   ("claude-3-5-sonnet-20241022", "claude-3-5-sonnet-v2@20241022"),
   ("claude-3-7-sonnet-20250219", "claude-3-7-sonnet@20250219"),
   ("claude-sonnet-4-20250514", "claude-sonnet-4@20250514"),
   ("claude-opus-4-20250514", "claude-opus-4@20250514")]

/-- The vertex `Credentials` struct.  Its Go definition is in a file of
the vertex package that is not under src/; modelled from the spec:
service-account JSON carries a project id (plus private key and token
URI, spec §6), and `GetRequestURL` consults only `ProjectID`, the field
kept here. -/
structure Credentials where
  projectID : String
deriving Repr, DecidableEq

/-- The fields of RelayInfo that `GetRequestURL` and `Init` read or
write.  `apiKey` carries the channel key as the result of JSON parsing:
`none` models a byte string that is not well-formed JSON, `some kvs` a
JSON object with string fields. -/
structure VertexRelayInfo where
  apiKey : Option (List (String × String))
  apiVersion : String
  originModelName : String
  upstreamModelName : String
  isStream : Bool
deriving Repr, DecidableEq

/-- model_setting Gemini settings consulted by `GetRequestURL`. -/
structure GeminiSettings where
  thinkingAdapterEnabled : Bool
deriving Repr, DecidableEq

/-- The vertex `Adaptor` receiver state (adaptor.go:42-45). -/
structure VertexAdaptor where
  requestMode : Nat
  accountCredentials : Credentials
deriving Repr, DecidableEq

/-- `json.Unmarshal(info.ApiKey, adc)` at adaptor.go:79, with Go
`encoding/json` semantics: syntactically invalid input is an error, while
a well-formed object whose `project_id` key is absent unmarshals
successfully and leaves the field at its zero value `""`. -/
def unmarshalCredentials (apiKey : Option (List (String × String))) :
    Except String Credentials :=
  match apiKey with
  | none => Except.error "failed to decode credentials file"
  | some kvs => Except.ok { projectID := (tableLookup kvs "project_id").getD "" }

/-- adaptor.go:67-75 `Init`: derive the request mode from the upstream
model name; credentials are not touched here. -/
def VertexInit (a : VertexAdaptor) (info : VertexRelayInfo) : VertexAdaptor :=
  if goHasPrefix info.upstreamModelName "claude" then
    { a with requestMode := RequestModeClaude }
  else if goHasPrefix info.upstreamModelName "gemini" then
    { a with requestMode := RequestModeGemini }
  else if strContains info.upstreamModelName "llama" then
    { a with requestMode := RequestModeLlama }
  else a

/-- adaptor.go:86-96: in Gemini mode with the thinking adapter enabled,
`GetRequestURL` rewrites `info.UpstreamModelName`, handling the
`-thinking-<budget>`, `-thinking` and `-nothinking` model-name forms. -/
def geminiThinkingRewrite (gem : GeminiSettings) (info : VertexRelayInfo) :
    VertexRelayInfo :=
  if gem.thinkingAdapterEnabled then
    if strContains info.upstreamModelName "-thinking-" then
      { info with upstreamModelName := goSplitFirst info.upstreamModelName "-thinking-" }
    else if goHasSuffix info.upstreamModelName "-thinking" then
      { info with upstreamModelName := trimSuffix info.upstreamModelName "-thinking" }
    else if goHasSuffix info.upstreamModelName "-nothinking" then
      { info with upstreamModelName := trimSuffix info.upstreamModelName "-nothinking" }
    else info
  else info

/-- adaptor.go:98-119: the Gemini URL form (stream vs non-stream suffix,
global vs regional host). -/
def geminiURL (adc : Credentials) (region : String) (info : VertexRelayInfo) :
    Except String String :=
  let sfx := if info.isStream then "streamGenerateContent?alt=sse" else "generateContent"
  if region = "global" then
    Except.ok ("https://aiplatform.googleapis.com/v1/projects/" ++ adc.projectID ++
      "/locations/global/publishers/google/models/" ++ info.upstreamModelName ++
      ":" ++ sfx)
  else
    Except.ok ("https://" ++ region ++ "-aiplatform.googleapis.com/v1/projects/" ++
      adc.projectID ++ "/locations/" ++ region ++ "/publishers/google/models/" ++
      info.upstreamModelName ++ ":" ++ sfx)

/-- adaptor.go:121-146: the Claude URL form, including the
`claudeModelMap` rename. -/
def claudeURL (adc : Credentials) (region : String) (info : VertexRelayInfo) :
    Except String String :=
  let sfx := if info.isStream then "streamRawPredict?alt=sse" else "rawPredict"
  let model := (tableLookup claudeModelMap info.upstreamModelName).getD
    info.upstreamModelName
  if region = "global" then
    Except.ok ("https://aiplatform.googleapis.com/v1/projects/" ++ adc.projectID ++
      "/locations/global/publishers/anthropic/models/" ++ model ++ ":" ++ sfx)
  else
    Except.ok ("https://" ++ region ++ "-aiplatform.googleapis.com/v1/projects/" ++
      adc.projectID ++ "/locations/" ++ region ++ "/publishers/anthropic/models/" ++
      model ++ ":" ++ sfx)

/-- adaptor.go:147-154: the Llama URL form. -/
def llamaURL (adc : Credentials) (region : String) : Except String String :=
  Except.ok ("https://" ++ region ++ "-aiplatform.googleapis.com/v1beta1/projects/" ++
    adc.projectID ++ "/locations/" ++ region ++ "/endpoints/openapi/chat/completions")

/-- adaptor.go:77-156 `GetRequestURL`.  `regionOf` models
`GetModelRegion` (modelled from the spec: the model→region mapping of
the channel, spec §4.5; its Go source is not under src/).  The result
carries, besides the URL or error, the updated receiver (line 83 writes
`a.AccountCredentials`) and the updated info (lines 88-95 may rewrite
`info.UpstreamModelName`); URL formatting per request mode is factored
into `geminiURL`, `claudeURL` and `llamaURL` above. -/
def GetRequestURL (a : VertexAdaptor) (gem : GeminiSettings)
    (regionOf : String → String → String) (info : VertexRelayInfo) :
    Except String String × VertexAdaptor × VertexRelayInfo :=
  match unmarshalCredentials info.apiKey with
  | Except.error e => (Except.error e, a, info)
  | Except.ok adc =>
    if a.requestMode = RequestModeGemini then
      (geminiURL adc (regionOf info.apiVersion info.originModelName)
        (geminiThinkingRewrite gem info),
       { a with accountCredentials := adc }, geminiThinkingRewrite gem info)
    else if a.requestMode = RequestModeClaude then
      (claudeURL adc (regionOf info.apiVersion info.originModelName) info,
       { a with accountCredentials := adc }, info)
    else if a.requestMode = RequestModeLlama then
      (llamaURL adc (regionOf info.apiVersion info.originModelName),
       { a with accountCredentials := adc }, info)
    else (Except.error "unsupported request mode",
       { a with accountCredentials := adc }, info)

/-! ## relay/claude_handler.go -/

/-- claude_handler.go:22-35 `getAndValidateClaudeRequest`.  The argument
is the outcome of `c.ShouldBindJSON` (`none` = bind error).  Go checks
`Messages == nil || len(Messages) == 0`; both cases are the empty
list. -/
def getAndValidateClaudeRequest (bindResult : Option ClaudeRequest) :
    Except String ClaudeRequest :=
  match bindResult with
  | none => Except.error "bind error"
  | some r =>
    if r.messages = [] then Except.error "field messages is required"
    else if r.model = "" then Except.error "field model is required"
    else Except.ok r

/-- claude_handler.go:101-103: substitute the per-model default when the
inbound `max_tokens` is zero. -/
def defaultMaxTokensStep (s : ClaudeSettings) (req : ClaudeRequest) : ClaudeRequest :=
  if req.maxTokens = 0 then { req with maxTokens := s.defaultMaxTokens req.model }
  else req

/-- claude_handler.go:105-125: the thinking-adapter transform.  When the
adapter is enabled and the model carries the `-thinking` suffix: a
missing thinking block is synthesized (max_tokens floored at 1280,
budget = `int(float64(maxTokens) * percentage)` i.e. truncation,
`top_p` cleared to 0, temperature pinned to 1.0), then the suffix is
trimmed from the model and mirrored into `info.UpstreamModelName`. -/
def thinkingAdapterStep (s : ClaudeSettings) (req : ClaudeRequest) (info : RelayInfo) :
    ClaudeRequest × RelayInfo :=
  if s.thinkingAdapterEnabled && goHasSuffix req.model "-thinking" then
    let req1 :=
      if req.thinking.isNone then
        let mt := if req.maxTokens < 1280 then 1280 else req.maxTokens
        { req with
          maxTokens := mt
          thinking := some
            { thinkingType := "enabled"
              budgetTokens := some ⌊(mt : ℚ) * s.thinkingAdapterBudgetTokensPercentage⌋ }
          topP := 0
          temperature := some 1 }
      else req
    let req2 := { req1 with model := trimSuffix req1.model "-thinking" }
    (req2, { info with upstreamModelName := req2.model })
  else (req, info)

/-- Modelled from the spec: `service.PostClaudeConsumeQuota` is not under
src/; per spec §4.1 "If the adapter's returned `Usage` is absent or
zero-valued on success, settlement uses `prompt_tokens = counted,
completion_tokens = 0`".  This function yields the usage the settlement
bills, given the pre-flight counted prompt tokens. -/
def postClaudeConsumeQuotaBilled (countedPrompt : Int) (u : Usage) : Usage :=
  if u.promptTokens = 0 ∧ u.completionTokens = 0 then
    { promptTokens := countedPrompt, completionTokens := 0, totalTokens := countedPrompt }
  else u

/-- The upstream `*http.Response` fields the handler consults. -/
structure Resp where
  statusCode : Int
  contentType : String
deriving Repr, DecidableEq

/-- A terminal quota-ledger action of one request: the deferred
`returnPreConsumedQuota` refund, or the `PostClaudeConsumeQuota`
settlement with the usage it bills. -/
inductive LedgerAction
  | refund
  | settle (billed : Usage)
deriving Repr, DecidableEq

/-- How a run of `ClaudeHelper` ends: a non-nil error return, a nil
(success) return, or a runtime panic. -/
inductive Outcome
  | errorReturn
  | ok
  | panicked
deriving Repr, DecidableEq

/-- Observable trace of one `ClaudeHelper` run: the outcome, whether the
pre-consumption reservation succeeded (so the deferred refund closure was
registered), the ledger actions in order, the successive values taken by
`relayInfo.IsStream`, the request value passed to token counting, and the
request value passed to `ConvertClaudeRequest`. -/
structure RunResult where
  outcome : Outcome
  reserved : Bool
  ledger : List LedgerAction
  isStreamTrace : List Bool
  countedOn : Option ClaudeRequest
  converted : Option ClaudeRequest
deriving Repr, DecidableEq

/-- Outcomes of the external calls `ClaudeHelper` makes, one field per
call site, in source order.  `mappedModel` models
`helper.ModelMappedHelper` (modelled from the spec §4.1 step 2: it
rewrites the model through the channel aliases and sets
`UpstreamModelName`; `none` = error).  `countTokens` models
`service.CountTokenClaudeRequest` applied to the request value at the
call site. -/
structure Env where
  settings : ClaudeSettings
  initialIsStream : Bool
  bindResult : Option ClaudeRequest
  mappedModel : String → Option String
  countTokens : ClaudeRequest → Option Int
  priceOk : Bool
  preConsumeOk : Bool
  adaptorFound : Bool
  convertOk : Bool
  marshalOk : Bool
  doRequestErr : Bool
  resp : Option Resp
  doResponseErr : Bool
  doResponseUsage : Option Usage

/-- An error return of `ClaudeHelper`.  Every `return` after the `defer`
at claude_handler.go:88-92 runs the deferred closure with the named
return `newAPIError` non-nil, so the refund fires exactly when the
reservation had succeeded. -/
def mkError (reserved : Bool) (trace : List Bool)
    (countedOn converted : Option ClaudeRequest) : RunResult :=
  { outcome := Outcome.errorReturn
    reserved := reserved
    ledger := if reserved then [LedgerAction.refund] else []
    isStreamTrace := trace
    countedOn := countedOn
    converted := converted }

/-- claude_handler.go:176-200, the tail of `ClaudeHelper` after the
status check: `DoResponse`, then either the error return (refund via the
defer), or the settlement.  A successful `DoResponse` that yields no
usage panics before any ledger action: an untyped nil panics at the
`usage.(*dto.Usage)` assertion on line 199, a typed-nil pointer panics
dereferencing `usageInfo.PromptTokens` in the log on line 193; in both
cases the deferred closure sees `newAPIError == nil` and does not
refund. -/
def claudeFinish (env : Env) (promptTokens : Int) (reserved : Bool) (trace : List Bool)
    (countedOn converted : Option ClaudeRequest) : RunResult :=
  if env.doResponseErr = true then mkError reserved trace countedOn converted
  else
    match env.doResponseUsage with
    | none =>
        { outcome := Outcome.panicked
          reserved := reserved
          ledger := []
          isStreamTrace := trace
          countedOn := countedOn
          converted := converted }
    | some u =>
        { outcome := Outcome.ok
          reserved := reserved
          ledger := [LedgerAction.settle (postClaudeConsumeQuotaBilled promptTokens u)]
          isStreamTrace := trace
          countedOn := countedOn
          converted := converted }

/-- claude_handler.go:56-200, the body of `ClaudeHelper` for a request
`req0` that passed validation, translated step by step over an
environment of external-call outcomes.  Logging and timing calls are
omitted.  Source order is preserved: the stream-flag write
(lines 56-58), model mapping, token counting (line 67), pricing, the
quota reservation and its deferred refund (lines 83-92), adapter lookup,
the zero-`max_tokens` default (lines 101-103), the thinking transform
(lines 105-125), request conversion and marshalling, `DoRequest`, the
`IsStream` promotion on the upstream content type (line 158), the non-200
branch (lines 166-173), and the `DoResponse`/settlement tail. -/
def claudeHelperSteps (env : Env) (req0 : ClaudeRequest) : RunResult :=
  let s0 := env.initialIsStream
  let s1 := if req0.stream then true else s0
  match env.mappedModel req0.model with
  | none => mkError false [s0, s1] none none
  | some m =>
    let req1 := { req0 with model := m }
    match env.countTokens req1 with
    | none => mkError false [s0, s1] (some req1) none
    | some promptTokens =>
      if env.priceOk = false then mkError false [s0, s1] (some req1) none
      else if env.preConsumeOk = false then mkError false [s0, s1] (some req1) none
      else if env.adaptorFound = false then mkError true [s0, s1] (some req1) none
      else
        let req2 := defaultMaxTokensStep env.settings req1
        let info3 : RelayInfo :=
          { isStream := s1, upstreamModelName := m, promptTokens := promptTokens }
        let ri := thinkingAdapterStep env.settings req2 info3
        if env.convertOk = false then mkError true [s0, s1] (some req1) (some ri.1)
        else if env.marshalOk = false then mkError true [s0, s1] (some req1) (some ri.1)
        else if env.doRequestErr = true then mkError true [s0, s1] (some req1) (some ri.1)
        else
          match env.resp with
          | some resp =>
            let s2 := ri.2.isStream || goHasPrefix resp.contentType "text/event-stream"
            if resp.statusCode ≠ 200 then
              mkError true [s0, s1, s2] (some req1) (some ri.1)
            else claudeFinish env promptTokens true [s0, s1, s2] (some req1) (some ri.1)
          | none =>
            claudeFinish env promptTokens true [s0, s1] (some req1) (some ri.1)

/-- claude_handler.go:37-201 `ClaudeHelper`: validation (lines 47-51,
which precedes every side effect), then the pipeline body
`claudeHelperSteps`. -/
def claudeHelper (env : Env) : RunResult :=
  match getAndValidateClaudeRequest env.bindResult with
  | Except.error _ => mkError false [env.initialIsStream] none none
  | Except.ok req0 => claudeHelperSteps env req0

/-! ## Concrete inputs for the run-level theorems -/

/-- A concrete non-thinking inbound request. -/
def reqHi : ClaudeRequest :=
  { model := "claude-3-5-haiku-20241022", messages := ["hi"], maxTokens := 64,
    stream := false, thinking := none, topP := 0, temperature := none }

/-- Concrete settings: thinking adapter enabled, budget percentage 4/5,
per-model default max_tokens 4096. -/
def settingsA : ClaudeSettings :=
  { thinkingAdapterEnabled := true
    thinkingAdapterBudgetTokensPercentage := 4 / 5
    defaultMaxTokens := fun _ => 4096 }

/-- An environment in which every external call succeeds, the upstream
answers 200 with a JSON body, and `DoResponse` reports usage 7/3/10. -/
def envHappy : Env :=
  { settings := settingsA
    initialIsStream := false
    bindResult := some reqHi
    mappedModel := fun mname => some mname
    countTokens := fun _ => some 7
    priceOk := true
    preConsumeOk := true
    adaptorFound := true
    convertOk := true
    marshalOk := true
    doRequestErr := false
    resp := some ⟨200, "application/json"⟩
    doResponseErr := false
    doResponseUsage := some ⟨7, 3, 10⟩ }

/-- C1's failing input: as `envHappy` but `DoResponse` succeeds while
reporting no usage (the Go nil). -/
def envNilUsage : Env := { envHappy with doResponseUsage := none }

/-- C4's zero-valued-usage input. -/
def envZeroUsage : Env := { envHappy with doResponseUsage := some ⟨0, 0, 0⟩ }

/-- C4's nil-usage input (distinct from C1's: counted prompt 9). -/
def envNilUsageB : Env :=
  { envHappy with countTokens := fun _ => some 9, doResponseUsage := none }

/-- An inbound request with `max_tokens` 0. -/
def reqZeroMax : ClaudeRequest :=
  { model := "claude-3-5-sonnet-20241022", messages := ["hi"], maxTokens := 0,
    stream := false, thinking := none, topP := 0, temperature := none }

/-- C3's input: inbound `max_tokens` 0 with per-model default 4096. -/
def envC3 : Env := { envHappy with bindResult := some reqZeroMax }

/-- A thinking-model request with `max_tokens` 1281 (C2). -/
def req1281 : ClaudeRequest :=
  { model := "claude-sonnet-4-20250514-thinking", messages := ["hi"], maxTokens := 1281,
    stream := false, thinking := none, topP := 1 / 2, temperature := none }

/-- A thinking-model request with `max_tokens` 500 (spec §8 scenario 6). -/
def req500 : ClaudeRequest :=
  { model := "claude-3-7-sonnet-20250219-thinking", messages := ["hi"], maxTokens := 500,
    stream := false, thinking := none, topP := 1 / 2, temperature := none }

/-- A blank RelayInfo. -/
def infoBlank : RelayInfo :=
  { isStream := false, upstreamModelName := "", promptTokens := 0 }

/-! ## Theorems -/

/-- Helper: the remap is the identity at 200 and at any code whose
string form has no entry in the table. -/
theorem resetStatusCode_id (c : Int) (m : List (String × String))
    (h : c = 200 ∨ tableLookup m (goItoa c) = none) : ResetStatusCode c m = c := by
  unfold ResetStatusCode
  rcases h with h | h
  · simp [h]
  · simp [h]

/-- C6: `ResetStatusCode` leaves an error whose status code is 200
untouched, and remapping an already-remapped error is a no-op whenever
the target code of the first remap has no further entry in the mapping
table. -/
theorem resetStatusCode_200_and_idempotent (e : Int) (m : List (String × String)) :
    (e = 200 → ResetStatusCode e m = e) ∧
    (tableLookup m (goItoa (ResetStatusCode e m)) = none →
      ResetStatusCode (ResetStatusCode e m) m = ResetStatusCode e m) := by
  constructor
  · intro h
    exact resetStatusCode_id e m (Or.inl h)
  · intro h
    exact resetStatusCode_id (ResetStatusCode e m) m (Or.inr h)

/-- Witness for C6 at the concrete table mapping 429 to 503. -/
theorem resetStatusCode_200_and_idempotent_witness :
    ResetStatusCode 200 [("429", "503")] = 200 ∧
    ResetStatusCode (ResetStatusCode 429 [("429", "503")]) [("429", "503")] =
      ResetStatusCode 429 [("429", "503")] :=
  ⟨(resetStatusCode_200_and_idempotent 200 [("429", "503")]).1 rfl,
   (resetStatusCode_200_and_idempotent 429 [("429", "503")]).2 (by decide)⟩

/-- C10: when the mapping sends the current (non-200) status code to a
string that is not a valid integer, the ignored `strconv.Atoi` error
leaves `intCode` at 0 and the error's status code is set to 0. -/
theorem resetStatusCode_invalid_target_zero (c : Int) (m : List (String × String))
    (v : String) (hc : ¬ c = 200) (hl : tableLookup m (goItoa c) = some v)
    (hv : goParseIntSyn v = none) : ResetStatusCode c m = 0 := by
  unfold ResetStatusCode goAtoi
  simp [hc, hl, hv]

/-- Witness for C10: the table maps 429 to the non-numeric string
"boom". -/
theorem resetStatusCode_invalid_target_zero_witness :
    ResetStatusCode 429 [("429", "boom")] = 0 :=
  resetStatusCode_invalid_target_zero 429 [("429", "boom")] "boom"
    (by decide) (by decide) (by decide)

/-- C7: every branch of `RelayErrorHandler` returns an error whose
status code equals the upstream status; a body parsing to the canonical
envelope with a non-empty message yields the structured error built from
that envelope; an unreadable or unparsable body yields an opaque error
(no parsed envelope attached) that still carries the upstream status. -/
theorem relayErrorHandler_preserves_status (status : Int) (body : UpstreamBody)
    (showBody : Bool) :
    (RelayErrorHandler status body showBody).statusCode = status ∧
    (∀ r, body = UpstreamBody.parsed r → r.error.message ≠ "" →
      (RelayErrorHandler status body showBody).kind = NormalizedErrKind.structured r.error) ∧
    (body = UpstreamBody.readFail →
      (RelayErrorHandler status body showBody).kind = NormalizedErrKind.bare) ∧
    (∀ raw, body = UpstreamBody.unparsable raw →
      ∀ e, (RelayErrorHandler status body showBody).kind ≠ NormalizedErrKind.structured e) := by
  refine ⟨?_, ?_, ?_, ?_⟩
  · cases body with
    | readFail => rfl
    | unparsable raw =>
        simp only [RelayErrorHandler]
        split <;> rfl
    | parsed r =>
        simp only [RelayErrorHandler]
        split <;> rfl
  · intro r hr hmsg
    subst hr
    simp only [RelayErrorHandler]
    simp [hmsg]
  · intro hb
    subst hb
    rfl
  · intro raw hb e
    subst hb
    simp only [RelayErrorHandler]
    split <;> simp

/-- Witness for C7, covering each hypothesis: a parsed envelope with a
non-empty message, a read failure, and an unparsable body. -/
theorem relayErrorHandler_preserves_status_witness :
    (RelayErrorHandler 502 (UpstreamBody.parsed ⟨⟨"overloaded", "api_error", ""⟩, "overloaded"⟩)
        false).kind = NormalizedErrKind.structured ⟨"overloaded", "api_error", ""⟩ ∧
    (RelayErrorHandler 502 UpstreamBody.readFail false).kind = NormalizedErrKind.bare ∧
    ∀ e, (RelayErrorHandler 502 (UpstreamBody.unparsable "<html>") false).kind ≠
      NormalizedErrKind.structured e :=
  ⟨(relayErrorHandler_preserves_status 502
      (UpstreamBody.parsed ⟨⟨"overloaded", "api_error", ""⟩, "overloaded"⟩) false).2.1
      ⟨⟨"overloaded", "api_error", ""⟩, "overloaded"⟩ rfl (by decide),
   (relayErrorHandler_preserves_status 502 UpstreamBody.readFail false).2.2.1 rfl,
   fun e => (relayErrorHandler_preserves_status 502
      (UpstreamBody.unparsable "<html>") false).2.2.2 "<html>" rfl e⟩

/-- C8 counterexample: with well-formed service-account JSON that merely
lacks `project_id`, `json.Unmarshal` succeeds with the zero value for
`ProjectID`, and `GetRequestURL` returns a URL (with an empty project
path segment) instead of an error; the request proceeds upstream. -/
theorem getRequestURL_missing_project_cex :
    (GetRequestURL ⟨RequestModeClaude, ⟨""⟩⟩ ⟨true⟩ (fun _ _ => "us-east5")
      ⟨some [("type", "service_account")], "", "claude-3-haiku-20240307",
        "claude-3-haiku-20240307", false⟩).1 =
    Except.ok ("https://us-east5-aiplatform.googleapis.com/v1/projects//locations/us-east5/publishers/anthropic/models/claude-3-haiku@20240307:rawPredict") := by
  rfl

/-- C8 amended: in Claude mode `GetRequestURL` fails exactly when the
ApiKey is not well-formed JSON; any well-formed JSON object — in
particular one lacking `project_id` — yields a URL. -/
theorem getRequestURL_claude_error_iff_bad_json (a : VertexAdaptor) (gem : GeminiSettings)
    (regionOf : String → String → String) (info : VertexRelayInfo)
    (hmode : a.requestMode = RequestModeClaude) :
    (info.apiKey = none → (GetRequestURL a gem regionOf info).1 =
      Except.error "failed to decode credentials file") ∧
    (∀ kvs, info.apiKey = some kvs →
      ∃ u, (GetRequestURL a gem regionOf info).1 = Except.ok u) := by
  constructor
  · intro h
    simp [GetRequestURL, unmarshalCredentials, h]
  · intro kvs h
    simp only [GetRequestURL, unmarshalCredentials, h]
    simp only [hmode, RequestModeClaude, RequestModeGemini]
    norm_num
    simp only [claudeURL]
    split <;> exact ⟨_, rfl⟩

/-- Witness for C8 amended: a syntactically bad key errors, an empty
JSON object yields a URL. -/
theorem getRequestURL_claude_error_iff_bad_json_witness :
    (GetRequestURL ⟨RequestModeClaude, ⟨""⟩⟩ ⟨false⟩ (fun _ _ => "global")
      ⟨none, "", "m", "m", false⟩).1 = Except.error "failed to decode credentials file" ∧
    ∃ u, (GetRequestURL ⟨RequestModeClaude, ⟨""⟩⟩ ⟨false⟩ (fun _ _ => "global")
      ⟨some [], "", "m", "m", false⟩).1 = Except.ok u :=
  ⟨(getRequestURL_claude_error_iff_bad_json ⟨RequestModeClaude, ⟨""⟩⟩ ⟨false⟩
      (fun _ _ => "global") ⟨none, "", "m", "m", false⟩ rfl).1 rfl,
   (getRequestURL_claude_error_iff_bad_json ⟨RequestModeClaude, ⟨""⟩⟩ ⟨false⟩
      (fun _ _ => "global") ⟨some [], "", "m", "m", false⟩ rfl).2 [] rfl⟩

/-- C9 counterexample: `GetRequestURL` is not a pure function of `info`:
in Gemini mode with the thinking adapter enabled it rewrites
`info.UpstreamModelName` (line 92), and in every mode it overwrites the
adapter's `AccountCredentials` (line 83). -/
theorem getRequestURL_impure_cex :
    ((GetRequestURL ⟨RequestModeGemini, ⟨""⟩⟩ ⟨true⟩ (fun _ _ => "global")
      ⟨some [("project_id", "p1")], "", "gemini-2.5-pro-thinking",
        "gemini-2.5-pro-thinking", false⟩).2.2.upstreamModelName = "gemini-2.5-pro") ∧
    ("gemini-2.5-pro" : String) ≠ "gemini-2.5-pro-thinking" ∧
    ((GetRequestURL ⟨RequestModeClaude, ⟨"old"⟩⟩ ⟨true⟩ (fun _ _ => "global")
      ⟨some [("project_id", "p1")], "", "claude-opus-4-20250514",
        "claude-opus-4-20250514", false⟩).2.1.accountCredentials = ⟨"p1"⟩) ∧
    (⟨"p1"⟩ : Credentials) ≠ ⟨"old"⟩ := by
  refine ⟨by decide, by decide, by decide, by decide⟩

/-- Helper: `geminiThinkingRewrite` touches only `upstreamModelName`,
and is the identity when the thinking adapter is disabled. -/
theorem geminiThinkingRewrite_frame (gem : GeminiSettings) (info : VertexRelayInfo) :
    (geminiThinkingRewrite gem info).apiKey = info.apiKey ∧
    (geminiThinkingRewrite gem info).apiVersion = info.apiVersion ∧
    (geminiThinkingRewrite gem info).originModelName = info.originModelName ∧
    (geminiThinkingRewrite gem info).isStream = info.isStream ∧
    (gem.thinkingAdapterEnabled = false → geminiThinkingRewrite gem info = info) := by
  unfold geminiThinkingRewrite
  refine ⟨?_, ?_, ?_, ?_, ?_⟩ <;> (repeat' split) <;> simp_all

/-- C9 amended: `GetRequestURL` is deterministic but not effect-free: it
overwrites the adapter's `AccountCredentials` and, only in Gemini mode
with the thinking adapter enabled, may rewrite
`info.UpstreamModelName`; every other field of `info`, and the adapter's
`RequestMode`, are left unchanged. -/
theorem getRequestURL_frame (a : VertexAdaptor) (gem : GeminiSettings)
    (regionOf : String → String → String) (info : VertexRelayInfo) :
    ((GetRequestURL a gem regionOf info).2.2.apiKey = info.apiKey ∧
     (GetRequestURL a gem regionOf info).2.2.apiVersion = info.apiVersion ∧
     (GetRequestURL a gem regionOf info).2.2.originModelName = info.originModelName ∧
     (GetRequestURL a gem regionOf info).2.2.isStream = info.isStream ∧
     (GetRequestURL a gem regionOf info).2.1.requestMode = a.requestMode) ∧
    (¬ (a.requestMode = RequestModeGemini ∧ gem.thinkingAdapterEnabled = true) →
      (GetRequestURL a gem regionOf info).2.2.upstreamModelName = info.upstreamModelName) := by
  have hfr := geminiThinkingRewrite_frame gem info
  unfold GetRequestURL
  cases h : unmarshalCredentials info.apiKey with
  | error e =>
      exact ⟨⟨rfl, rfl, rfl, rfl, rfl⟩, fun _ => rfl⟩
  | ok adc =>
      refine ⟨?_, ?_⟩
      · repeat' split
        all_goals
          first
          | exact ⟨hfr.1, hfr.2.1, hfr.2.2.1, hfr.2.2.2.1, rfl⟩
          | exact ⟨rfl, rfl, rfl, rfl, rfl⟩
      · intro hng
        repeat' split
        all_goals try rfl
        rename_i hm2
        have hgem : gem.thinkingAdapterEnabled = false := by
          rcases Bool.eq_false_or_eq_true gem.thinkingAdapterEnabled with hg | hg
          · exact absurd ⟨hm2, hg⟩ hng
          · exact hg
        rw [hfr.2.2.2.2 hgem]

/-- Witness for C9 amended: in Claude mode the upstream model name is
untouched. -/
theorem getRequestURL_frame_witness :
    (GetRequestURL ⟨RequestModeClaude, ⟨""⟩⟩ ⟨true⟩ (fun _ _ => "global")
      ⟨some [("project_id", "p2")], "", "claude-opus-4-20250514",
        "claude-opus-4-20250514", true⟩).2.2.upstreamModelName = "claude-opus-4-20250514" :=
  (getRequestURL_frame ⟨RequestModeClaude, ⟨""⟩⟩ ⟨true⟩ (fun _ _ => "global")
      ⟨some [("project_id", "p2")], "", "claude-opus-4-20250514",
        "claude-opus-4-20250514", true⟩).2 (by decide)

/-- Helper: the request component of the thinking transform does not
depend on the RelayInfo argument. -/
theorem thinkingAdapterStep_fst_const (s : ClaudeSettings) (req : ClaudeRequest)
    (i j : RelayInfo) : (thinkingAdapterStep s req i).1 = (thinkingAdapterStep s req j).1 := by
  unfold thinkingAdapterStep
  split <;> rfl

/-- Helper: the thinking transform never writes `IsStream`. -/
theorem thinkingAdapterStep_snd_isStream (s : ClaudeSettings) (req : ClaudeRequest)
    (i : RelayInfo) : (thinkingAdapterStep s req i).2.isStream = i.isStream := by
  unfold thinkingAdapterStep
  split <;> rfl

/-- Helper: `claudeFinish` returns the stream trace it is given. -/
theorem claudeFinish_isStreamTrace (env : Env) (p : Int) (r : Bool) (t : List Bool)
    (c1 c2 : Option ClaudeRequest) : (claudeFinish env p r t c1 c2).isStreamTrace = t := by
  unfold claudeFinish
  repeat' split
  all_goals rfl

/-- Helper: `claudeFinish` records the counting request it is given. -/
theorem claudeFinish_countedOn (env : Env) (p : Int) (r : Bool) (t : List Bool)
    (c1 c2 : Option ClaudeRequest) : (claudeFinish env p r t c1 c2).countedOn = c1 := by
  unfold claudeFinish
  repeat' split
  all_goals rfl

/-- Helper: `claudeFinish` records the converted request it is given. -/
theorem claudeFinish_converted (env : Env) (p : Int) (r : Bool) (t : List Bool)
    (c1 c2 : Option ClaudeRequest) : (claudeFinish env p r t c1 c2).converted = c2 := by
  unfold claudeFinish
  repeat' split
  all_goals rfl

/-- C1 (code-bug evidence): on the failing input — reservation
succeeded, upstream 200, `DoResponse` returns a nil error and a nil
usage — the handler panics at the `usage.(*dto.Usage)` assertion and
NEITHER the refund NOR the settlement fires, violating the
exactly-one-terminal-ledger-action invariant the claim states. -/
theorem claudeHelper_nil_usage_no_ledger_action :
    (claudeHelper envNilUsage).reserved = true ∧
    (claudeHelper envNilUsage).outcome = Outcome.panicked ∧
    (claudeHelper envNilUsage).ledger = [] := by
  refine ⟨by decide, by decide, by decide⟩

/-- C4 (code-bug evidence): with a zero-valued (but non-nil) usage the
settlement proceeds and bills the counted prompt with zero completion,
as the claim says; but with an absent (nil) usage the handler panics
before any settlement instead of billing the counted fallback. -/
theorem claudeHelper_usage_fallback_eval :
    ((claudeHelper envZeroUsage).outcome = Outcome.ok ∧
     (claudeHelper envZeroUsage).ledger =
       [LedgerAction.settle { promptTokens := 7, completionTokens := 0, totalTokens := 7 }]) ∧
    ((claudeHelper envNilUsageB).outcome = Outcome.panicked ∧
     (claudeHelper envNilUsageB).ledger = []) := by
  refine ⟨⟨by decide, by decide⟩, by decide, by decide⟩

/-- C2 counterexample: at `max_tokens` 1281 and percentage 4/5 the code
computes `budget_tokens` 1024 (Go `int` truncation of 1024.8) while the
claim's `round(max_tokens × p)` is 1025. -/
theorem thinkingAdapterStep_trunc_not_round_cex :
    ((thinkingAdapterStep settingsA req1281 infoBlank).1.thinking =
      some { thinkingType := "enabled", budgetTokens := some ⌊(1281 : ℚ) * (4 / 5)⌋ }) ∧
    ⌊(1281 : ℚ) * (4 / 5)⌋ = 1024 ∧
    round ((1281 : ℚ) * (4 / 5)) = 1025 := by
  refine ⟨?_, ?_, ?_⟩
  · unfold thinkingAdapterStep
    rw [if_pos (show (settingsA.thinkingAdapterEnabled &&
        goHasSuffix req1281.model "-thinking") = true by decide)]
    norm_num [settingsA, req1281]
  · rw [Int.floor_eq_iff]
    norm_num
  · rw [round_eq, Int.floor_eq_iff]
    norm_num

/-- C2 amended: for an inbound `-thinking` model with no client thinking
block, adapter enabled, the transform yields `max_tokens = max(T, 1280)`
(`T` the max_tokens entering the transform — the inbound value, the
per-model default having been substituted first when it was zero),
`thinking.budget_tokens = ⌊max_tokens × p⌋` (truncation, not rounding),
`temperature = 1.0`, `top_p = 0`, and strips the `-thinking` suffix from
the model and from `info.UpstreamModelName`. -/
theorem thinkingAdapterStep_spec (s : ClaudeSettings) (req : ClaudeRequest)
    (info : RelayInfo) (he : s.thinkingAdapterEnabled = true)
    (hsuf : goHasSuffix req.model "-thinking" = true) (hth : req.thinking = none) :
    (thinkingAdapterStep s req info).1.maxTokens = max req.maxTokens 1280 ∧
    (thinkingAdapterStep s req info).1.thinking =
      some { thinkingType := "enabled"
             budgetTokens := some ⌊((max req.maxTokens 1280 : ℕ) : ℚ) *
               s.thinkingAdapterBudgetTokensPercentage⌋ } ∧
    (thinkingAdapterStep s req info).1.temperature = some 1 ∧
    (thinkingAdapterStep s req info).1.topP = 0 ∧
    (thinkingAdapterStep s req info).1.model = trimSuffix req.model "-thinking" ∧
    (thinkingAdapterStep s req info).2.upstreamModelName =
      (thinkingAdapterStep s req info).1.model := by
  have hmax : (if req.maxTokens < 1280 then 1280 else req.maxTokens) =
      max req.maxTokens 1280 := by
    by_cases hlt : req.maxTokens < 1280
    · simp [hlt, Nat.max_eq_right (Nat.le_of_lt hlt)]
    · simp [hlt, Nat.max_eq_left (Nat.le_of_not_lt hlt)]
  unfold thinkingAdapterStep
  simp only [he, hsuf, hth, Option.isNone_none, Bool.and_self, if_true, hmax]
  simp

/-- Witness for C2 amended, at spec §8 scenario 6's input: max_tokens
500 is floored to 1280. -/
theorem thinkingAdapterStep_spec_witness :
    (thinkingAdapterStep settingsA req500 infoBlank).1.maxTokens = max req500.maxTokens 1280 ∧
    max req500.maxTokens 1280 = 1280 :=
  ⟨(thinkingAdapterStep_spec settingsA req500 infoBlank (by decide) (by decide) rfl).1,
   by decide⟩

/-- C3 counterexample: with inbound `max_tokens` 0 and per-model default
4096, token counting runs on the request still carrying `max_tokens` 0 —
the substitution has NOT happened before counting; it happens after,
so the request later passed to conversion does carry 4096. -/
theorem claudeHelper_count_before_default_cex :
    (claudeHelper envC3).countedOn = some reqZeroMax ∧
    reqZeroMax.maxTokens = 0 ∧
    envC3.settings.defaultMaxTokens reqZeroMax.model = 4096 ∧
    (claudeHelper envC3).converted = some { reqZeroMax with maxTokens := 4096 } := by
  refine ⟨by decide, by decide, by decide, by decide⟩

set_option maxHeartbeats 2000000 in
/-- C3 amended: the per-model default is substituted AFTER token
counting and before request conversion: the request on which counting
runs carries the inbound `max_tokens` unchanged (only the model has been
remapped), and the request passed to conversion is the counted request
with the zero-default substitution and the thinking transform applied. -/
theorem claudeHelper_default_after_count (env : Env) (req : ClaudeRequest) (m : String)
    (hb : env.bindResult = some req) (hne : ¬ req.messages = []) (hmo : ¬ req.model = "")
    (hm : env.mappedModel req.model = some m) :
    (∀ r, (claudeHelper env).countedOn = some r → r = { req with model := m }) ∧
    (∀ rc, (claudeHelper env).converted = some rc →
      rc = (thinkingAdapterStep env.settings
        (defaultMaxTokensStep env.settings { req with model := m }) infoBlank).1) := by
  have he : claudeHelper env = claudeHelperSteps env req := by
    unfold claudeHelper getAndValidateClaudeRequest
    rw [hb]
    simp [hne, hmo]
  rw [he]
  constructor
  · intro r hr
    simp only [claudeHelperSteps, hm] at hr
    repeat' split at hr
    all_goals
      first
      | (rw [claudeFinish_countedOn] at hr
         injection hr with h1
         exact h1.symm)
      | (simp only [mkError] at hr
         injection hr with h1
         exact h1.symm)
  · intro rc hrc
    simp only [claudeHelperSteps, hm] at hrc
    repeat' split at hrc
    all_goals
      first
      | (rw [claudeFinish_converted] at hrc
         injection hrc with h1
         exact h1.symm.trans (thinkingAdapterStep_fst_const env.settings _ _ infoBlank))
      | (simp only [mkError] at hrc
         exact absurd hrc fun h => Option.noConfusion h)
      | (simp only [mkError] at hrc
         injection hrc with h1
         exact h1.symm.trans (thinkingAdapterStep_fst_const env.settings _ _ infoBlank))

/-- Witness for C3 amended at a concrete successful run: counting saw
max_tokens 0, conversion saw the substituted default 4096. -/
theorem claudeHelper_default_after_count_witness :
    (∀ r, (claudeHelper envC3).countedOn = some r → r = { reqZeroMax with model := reqZeroMax.model }) ∧
    (∀ rc, (claudeHelper envC3).converted = some rc →
      rc = (thinkingAdapterStep envC3.settings
        (defaultMaxTokensStep envC3.settings
          { reqZeroMax with model := reqZeroMax.model }) infoBlank).1) :=
  claudeHelper_default_after_count envC3 reqZeroMax reqZeroMax.model rfl
    (by decide) (by decide) rfl

/-- Helper: the stream trace of the pipeline body is monotone. -/
theorem claudeHelperSteps_isStream_mono (env : Env) (req0 : ClaudeRequest) :
    List.Chain' (fun a b => a = true → b = true) (claudeHelperSteps env req0).isStreamTrace := by
  simp only [claudeHelperSteps]
  repeat' split
  all_goals
    simp only [mkError, claudeFinish_isStreamTrace, thinkingAdapterStep_snd_isStream]
  all_goals
    first
    | exact List.chain'_singleton _
    | (rw [List.chain'_cons]
       exact ⟨fun h => by simp [h], List.chain'_singleton _⟩)
    | (rw [List.chain'_cons, List.chain'_cons]
       exact ⟨fun h => by simp [h], fun h => by simp [h], List.chain'_singleton _⟩)

/-- C5: within a single request the successive values taken by
`relayInfo.IsStream` — the initial flag, the line 56-58 write from the
inbound stream flag, and the line 158 promotion from the upstream
content type — form a monotone chain: every step either leaves the flag
unchanged or flips it false→true, never true→false. -/
theorem claudeHelper_isStream_monotone (env : Env) :
    List.Chain' (fun a b => a = true → b = true) (claudeHelper env).isStreamTrace := by
  unfold claudeHelper
  split
  · exact List.chain'_singleton _
  · exact claudeHelperSteps_isStream_mono env _

/-- Witness for C5 at a concrete run: the trace of the happy-path
environment is monotone. -/
theorem claudeHelper_isStream_monotone_witness :
    List.Chain' (fun a b => a = true → b = true) (claudeHelper envHappy).isStreamTrace :=
  claudeHelper_isStream_monotone envHappy
